import Mathlib

/-!
Shallow embedding of guidata.dataset.dataitems (concrete DataItem classes):
numeric items (NumericTypeItem, IntItem), string items, file items,
choice items (ChoiceItem, MultipleChoiceItem), and ButtonItem, together
with the validation, parsing, and serialization behavior the
specification describes.

Python values relevant to validation are embedded as the inductive PyVal,
carrying the Python 2 runtime type tags the validation code dispatches on
(int, long, bool, float, str, list, None). Integer values are Int, float
values are the exact rationals they denote; where the source converts an
integer to a float (the parity test of IntItem), the IEEE-754 double
rounding of that conversion is modelled exactly.
-/

/-- Embedded Python 2 values, as far as the validation layer inspects
them, tagged with their runtime type: None, booleans, int objects,
long objects, floats (each float denotes an exact rational), strings,
and lists. A Python 2 int object holds a platform-range value (at most
2 to the 63rd minus 1 in magnitude on 64-bit builds) and larger values
are long objects; the embedding carries the type tag and leaves that
range invariant to the statements that need it. -/
inductive PyVal where
  | VNone : PyVal
  | VBool (b : Bool) : PyVal
  | VInt (n : Int) : PyVal
  | VLong (n : Int) : PyVal
  | VFloat (q : ℚ) : PyVal
  | VStr (s : String) : PyVal
  | VList (l : List PyVal) : PyVal

/-- Python truthiness, used by code such as StringItem.check_value where
the source writes a bare boolean test on a value. None, False, numeric
zero, the empty string and the empty list are falsy. -/
def pyFalsy : PyVal → Bool
  | .VNone => true
  | .VBool b => !b
  | .VInt n => decide (n = 0)
  | .VLong n => decide (n = 0)
  | .VFloat q => decide (q = 0)
  | .VStr s => s.isEmpty
  | .VList l => l.isEmpty

/-- The two numeric target types of NumericTypeItem (class attribute type,
set to int by IntItem and to float by FloatItem). -/
inductive NumType where
  | int : NumType
  | float : NumType
deriving DecidableEq

/-- isinstance(value, self.type) for the numeric items, with the real
Python semantics: for type int, int objects pass and so do booleans
(bool is a subclass of int), while Python 2 long objects fail; for type
float only float objects pass. -/
def pyIsinstanceNum : NumType → PyVal → Bool
  | .int, .VInt _ => true
  | .int, .VBool _ => true
  | .float, .VFloat _ => true
  | _, _ => false

/-- The type discrimination stated by the specification sentence "v has
exactly the descriptor's numeric type", written from the claim's words
for comparison with the isinstance gate the code actually uses: an int
object for int, a float object for float, nothing else. -/
def hasExactNumericType : NumType → PyVal → Bool
  | .int, .VInt _ => true
  | .float, .VFloat _ => true
  | _, _ => false

/-- The numeric content of an embedded value, used for the comparisons
(value == 0, value < min, value > max) once the type check has passed.
Python compares ints, longs, bools (True is 1, False is 0) and floats
numerically, which the rational embedding reflects. Non-numeric values
map to 0; every use is guarded by the isinstance check. -/
def pyNumVal : PyVal → ℚ
  | .VInt n => (n : ℚ)
  | .VLong n => (n : ℚ)
  | .VBool b => if b then 1 else 0
  | .VFloat q => q
  | _ => 0

/-- The data properties of NumericTypeItem set in its constructor:
min, max, nonzero (each optional), plus the class attribute type. -/
structure NumericTypeItem where
  type : NumType
  min : Option ℚ
  max : Option ℚ
  nonzero : Option Bool

/-- NumericTypeItem.check_value: reject on type mismatch, then on
nonzero with value == 0, then on value < min, then on value > max;
accept otherwise. The early returns of the source become nested ifs. -/
def NumericTypeItem.check_value (it : NumericTypeItem) (v : PyVal) : Bool :=
  if pyIsinstanceNum it.type v = false then false
  else if it.nonzero.getD false && decide (pyNumVal v = 0) then false
  else if (match it.min with
           | some m => decide (pyNumVal v < m)
           | none => false) then false
  else if (match it.max with
           | some m => decide (m < pyNumVal v)
           | none => false) then false
  else true

/-- The data properties of IntItem: those of NumericTypeItem (with the
type attribute fixed to int) plus the optional even flag. -/
structure IntItem where
  min : Option ℚ
  max : Option ℚ
  nonzero : Option Bool
  even : Option Bool

/-- The NumericTypeItem view of an IntItem (its superclass state). -/
def IntItem.toNumeric (it : IntItem) : NumericTypeItem :=
  ⟨NumType.int, it.min, it.max, it.nonzero⟩

/-- Binary digit count of a natural number, with explicit fuel so that
it evaluates by kernel reduction. The fuel 1100 in natBits covers every
width on which float conversion returns (floats overflow at 2 to the
1024th, where the program raises instead of returning). -/
def natBitsAux : Nat → Nat → Nat
  | 0, _ => 0
  | fuel + 1, n => if n = 0 then 0 else natBitsAux fuel (n / 2) + 1

/-- Binary digit count (0 for 0). -/
def natBits (n : Nat) : Nat := natBitsAux 1100 n

/-- The value of the IEEE-754 double nearest to an integer: round to a
53-bit significand, ties to even. This is what the float conversion of
a Python int or long computes; it is exact for magnitudes up to 2 to
the 53rd, and for integer inputs the result is again an integer. The
program raises OverflowError at magnitudes of 2 to the 1024th and
beyond, so the model is faithful wherever the program returns. -/
def roundToDouble (n : Int) : Int :=
  let m := n.natAbs
  if m ≤ 2 ^ 53 then n
  else
    let shift := natBits m - 53
    let q := m / 2 ^ shift
    let r := m % 2 ^ shift
    let half := 2 ^ (shift - 1)
    let q2 := if half < r then q + 1
              else if r < half then q
              else if q % 2 = 0 then q else q + 1
    let mag : Int := Int.ofNat (q2 * 2 ^ shift)
    if n < 0 then -mag else mag

/-- The parity test of IntItem.check_value: value//2 == value/2.
The left side is exact floor division; the right side first converts
value to an IEEE double (roundToDouble) and then halves it, which is
exact (halving only decrements the exponent), and Python compares an
int with a float exactly. For magnitudes up to 2 to the 53rd this
equals evenness; beyond that the rounding of the conversion can make
the test pass on odd values. -/
def pyIntIsEven (n : Int) : Bool :=
  decide ((Int.fdiv n 2 : ℚ) = (roundToDouble n : ℚ) / 2)

/-- IntItem.check_value: the NumericTypeItem check first; then, when the
even flag is present, reject when (even and not is_even) or
(not even and is_even). After the isinstance gate the value is an int
object or a bool (numerically 1 or 0); the remaining arms are
unreachable. -/
def IntItem.check_value (it : IntItem) (v : PyVal) : Bool :=
  if NumericTypeItem.check_value it.toNumeric v = false then false
  else
    match it.even with
    | none => true
    | some ev =>
      let n : Int := match v with
        | .VInt n => n
        | .VBool b => if b then 1 else 0
        | _ => 0
      let is_even := pyIntIsEven n
      if (ev && !is_even) || (!ev && is_even) then false else true

/-- The data properties of StringItem set in its constructor. -/
structure StringItem where
  notempty : Option Bool

/-- StringItem.check_value: fails only when notempty is truthy and the
value is falsy; no type check is performed. -/
def StringItem.check_value (it : StringItem) (v : PyVal) : Bool :=
  if it.notempty.getD false && pyFalsy v then false else true

/-- The filesystem observations FilesOpenItem.check_value makes through
os.path: existence and regular-file tests, embedded as an oracle. -/
structure FileSystem where
  path_exists : String → Bool
  isfile : String → Bool

/-- FilesOpenItem.check_value: starts from allexist = True and, for each
path in the value, conjoins os.path.exists(path) and
os.path.isfile(path). -/
def FilesOpenItem.check_value (fs : FileSystem) (value : List String) : Bool :=
  value.foldl (fun allexist path => allexist && (fs.path_exists path && fs.isfile path)) true

/-- Choice keys as they arise in this module: either a key given by the
caller (an int or a string in practice) or the synthesized position
index, which is an int. -/
inductive PKey where
  | kint (n : Int) : PKey
  | kstr (s : String) : PKey
deriving DecidableEq

/-- One entry of a static choice sequence as the caller supplies it to
ChoiceItem: either a bare label, or a (key, label) tuple. -/
inductive ChoiceSpec where
  | lab (s : String) : ChoiceSpec
  | pair (k : PKey) (s : String) : ChoiceSpec

/-- A normalized choice entry: (key, label, image). Images are icon
paths; the plain ChoiceItem normalization always stores None here. -/
abbrev ChoiceEntry := PKey × String × Option String

/-- guidata.utils.utf8_to_unicode decodes byte strings to unicode text;
on the abstract text values of this embedding it is the identity. -/
def utf8_to_unicode (s : String) : String := s

/-- ChoiceItem._normalize_choice: a tuple entry keeps its key, a bare
label gets the enumeration index as key; the label goes through
utf8_to_unicode and the image slot is None. -/
def ChoiceItem.normalize_choice (idx : Nat) : ChoiceSpec → ChoiceEntry
  | .pair k v => (k, utf8_to_unicode v, none)
  | .lab v => (.kint (idx : Int), utf8_to_unicode v, none)

/-- The enumerate loop of ChoiceItem.__init__ building _choices_data,
starting at a given index. -/
def ChoiceItem.normalizeFrom (idx : Nat) : List ChoiceSpec → List ChoiceEntry
  | [] => []
  | c :: cs => ChoiceItem.normalize_choice idx c :: ChoiceItem.normalizeFrom (idx + 1) cs

/-- The normalized _choices_data for a static choice sequence
(enumeration starts at index 0). -/
def ChoiceItem.normalizeChoices (choices : List ChoiceSpec) : List ChoiceEntry :=
  ChoiceItem.normalizeFrom 0 choices

/-- The choices argument of ChoiceItem.__init__: a static sequence, or a
callable producing the list per instance (dynamic). -/
inductive Choices where
  | static (l : List ChoiceSpec) : Choices
  | dynamic : Choices

/-- The default argument of ChoiceItem.__init__: the FirstChoice
sentinel class, or an explicit default value. -/
inductive ChoiceDefaultArg where
  | firstChoice : ChoiceDefaultArg
  | given (d : Option PKey) : ChoiceDefaultArg

/-- The default resolution of ChoiceItem.__init__: with the FirstChoice
sentinel and static choices, the key of the first normalized entry
(indexing an empty list raises, embedded as the outer none); with the
sentinel and callable choices, None; otherwise the given default. -/
def ChoiceItem.resolveDefault (choices : Choices) (dflt : ChoiceDefaultArg) :
    Option (Option PKey) :=
  match dflt, choices with
  | .firstChoice, .static l =>
    match (ChoiceItem.normalizeChoices l).head? with
    | some e => some (some e.1)
    | none => none
  | .firstChoice, .dynamic => some none
  | .given d, _ => some d

/-- One token of the serialization stream. The multiple-choice items
write through write_sequence, the only writer operation this embedding
needs. -/
inductive WriteTok where
  | wsequence (s : List Bool) : WriteTok

/-- The writer state: the list of tokens written so far. -/
abbrev ItemWriter := List WriteTok

/-- writer.write_sequence(seq): appends one sequence token. -/
def ItemWriter.write_sequence (w : ItemWriter) (s : List Bool) : ItemWriter :=
  w ++ [WriteTok.wsequence s]

/-- The reader state: the list of tokens not yet consumed. -/
abbrev ItemReader := List WriteTok

/-- reader.read_sequence(): consumes the next token when it is a
sequence; fails on an exhausted stream. -/
def ItemReader.read_sequence : ItemReader → Option (List Bool × ItemReader)
  | WriteTok.wsequence s :: rest => some (s, rest)
  | [] => none

/-- The state of a MultipleChoiceItem descriptor: label and help from
DataItem, the normalized static choices and the default (data group),
and the shape (display group, initialized to (1, -1)). -/
structure MultipleChoiceItem where
  label : String
  help : String
  choices : List ChoiceEntry
  default : List PKey
  shape : Int × Int

/-- MultipleChoiceItem.horizontal(row_nb): sets the display shape to
(row_nb, -1) and returns the item itself. -/
def MultipleChoiceItem.horizontal (it : MultipleChoiceItem) (row_nb : Int) :
    MultipleChoiceItem :=
  { it with shape := (row_nb, -1) }

/-- MultipleChoiceItem.vertical(col_nb): sets the display shape to
(-1, col_nb) and returns the item itself. -/
def MultipleChoiceItem.vertical (it : MultipleChoiceItem) (col_nb : Int) :
    MultipleChoiceItem :=
  { it with shape := (-1, col_nb) }

/-- The boolean sequence MultipleChoiceItem.serialize builds: one
boolean per entry of the resolved choice list, in order, true iff the
key of the entry is in the stored value. -/
def MultipleChoiceItem.serializeSeq (it : MultipleChoiceItem) (value : List PKey) :
    List Bool :=
  it.choices.map (fun c => decide (c.1 ∈ value))

/-- MultipleChoiceItem.serialize: writes the boolean sequence through
writer.write_sequence. The stored value of the instance is passed
explicitly (the source reads it with get_value). -/
def MultipleChoiceItem.serialize (it : MultipleChoiceItem) (value : List PKey)
    (w : ItemWriter) : ItemWriter :=
  ItemWriter.write_sequence w (it.serializeSeq value)

/-- The enumerate loop of MultipleChoiceItem.deserialize: for each true
flag, appends _choices[idx][0]; indexing past the end of the choice
list raises, embedded as none. -/
def MultipleChoiceItem.decodeFlags (choices : List ChoiceEntry) :
    Nat → List Bool → Option (List PKey)
  | _, [] => some []
  | idx, flag :: rest =>
    if flag then
      match choices[idx]? with
      | some c => (MultipleChoiceItem.decodeFlags choices (idx + 1) rest).map
          (fun v => c.1 :: v)
      | none => none
    else MultipleChoiceItem.decodeFlags choices (idx + 1) rest

/-- MultipleChoiceItem.deserialize: reads one boolean sequence and
rebuilds the selected keys by pairing flag positions with the resolved
choice list; the result is the new stored value of the instance. -/
def MultipleChoiceItem.deserialize (it : MultipleChoiceItem) (r : ItemReader) :
    Option (List PKey × ItemReader) :=
  match ItemReader.read_sequence r with
  | none => none
  | some (flags, r2) =>
    match MultipleChoiceItem.decodeFlags it.choices 0 flags with
    | none => none
    | some v => some (v, r2)

/-- ButtonItem.serialize: pass (nothing is written). -/
def ButtonItem.serialize (w : ItemWriter) : ItemWriter := w

/-- ButtonItem.deserialize: pass (nothing is read, the stored value of
the instance is unchanged). -/
def ButtonItem.deserialize (value : PyVal) (r : ItemReader) : PyVal × ItemReader :=
  (value, r)

/-- The character class of the from_string regular expression: a digit,
a parenthesis, an arithmetic operator, a decimal point or the letter
e. -/
def numericCharClass (c : Char) : Bool :=
  c.isDigit || c = '(' || c = ')' || c = '+' || c = '/' ||
  c = '-' || c = '*' || c = '.' || c = 'e'

/-- The text the dollar anchor of the regular expression applies the
pattern to: Python re matches the anchor at the end of the string or
just before one trailing newline, so a single trailing newline is
discounted. -/
def stripTrailingNewline (cs : List Char) : List Char :=
  if cs.getLast? = some '\x0a' then cs.dropLast else cs

/-- NumericTypeItem.from_string first matches the value against the
regular expression ([0-9()+/\-*.]|e)+ anchored at both ends: at least
one character, each in the class, where the dollar anchor also accepts
one trailing newline. -/
def numericRegexMatch (s : String) : Bool :=
  let body := stripTrailingNewline s.toList
  !body.isEmpty && body.all numericCharClass

/-- A Python number during expression evaluation: an int or a float
(embedded as an exact rational). -/
inductive ENum where
  | eint (n : Int) : ENum
  | efloat (q : ℚ) : ENum
deriving DecidableEq

/-- The numeric content of an evaluation value. -/
def ENum.toRat : ENum → ℚ
  | .eint n => (n : ℚ)
  | .efloat q => q

/-- Unary minus. -/
def ENum.neg : ENum → ENum
  | .eint n => .eint (-n)
  | .efloat q => .efloat (-q)

/-- Addition: int + int stays int, otherwise float. -/
def ENum.add : ENum → ENum → ENum
  | .eint a, .eint b => .eint (a + b)
  | a, b => .efloat (a.toRat + b.toRat)

/-- Subtraction: int - int stays int, otherwise float. -/
def ENum.sub : ENum → ENum → ENum
  | .eint a, .eint b => .eint (a - b)
  | a, b => .efloat (a.toRat - b.toRat)

/-- Multiplication: int * int stays int, otherwise float. -/
def ENum.mul : ENum → ENum → ENum
  | .eint a, .eint b => .eint (a * b)
  | a, b => .efloat (a.toRat * b.toRat)

/-- Division: true division yielding a float, also for two ints,
because dataitems.py imports division from future and eval inherits
that flag from the calling module. Division by zero is an evaluation
error. -/
def ENum.div (a b : ENum) : Option ENum :=
  if b.toRat = 0 then none else some (.efloat (a.toRat / b.toRat))

/-- The decimal value of a digit sequence. -/
def digitsVal (ds : List Char) : Nat :=
  ds.foldl (fun a c => 10 * a + (c.toNat - 48)) 0

/-- Splits off the longest leading run of decimal digits. -/
def takeDigits : List Char → List Char × List Char
  | [] => ([], [])
  | c :: cs =>
    if c.isDigit then
      let p := takeDigits cs
      (c :: p.1, p.2)
    else ([], c :: cs)

/-- Scales a rational mantissa by a signed decimal exponent. -/
def ratTimesPow10 (q : ℚ) (e : Int) : ℚ :=
  if 0 ≤ e then q * (10 : ℚ) ^ e.toNat else q / (10 : ℚ) ^ (-e).toNat

/-- Modelled from the spec: lexing of one numeric literal of the
restricted arithmetic grammar (the Python eval builtin and its literal
syntax are not part of the repository sources). Digits with an optional
fraction after a decimal point and an optional e-exponent with optional
sign; a literal with a point or an exponent is a float, a bare digit
run is an int; a lone point or a dangling exponent is an error. -/
def lexNumber (cs : List Char) : Option (ENum × List Char) :=
  let ip := takeDigits cs
  let fr : Option (List Char) × List Char :=
    match ip.2 with
    | '.' :: rest =>
      let f := takeDigits rest
      (some f.1, f.2)
    | r => (none, r)
  let noDigits : Bool :=
    ip.1.isEmpty && (match fr.1 with
                     | some f => f.isEmpty
                     | none => true)
  if noDigits then none
  else
    let mant : ℚ := (digitsVal ip.1 : ℚ) +
      (match fr.1 with
       | some f => (digitsVal f : ℚ) / (10 : ℚ) ^ f.length
       | none => 0)
    let isFloat : Bool := match fr.1 with | some _ => true | none => false
    match fr.2 with
    | 'e' :: rest =>
      let se : Int × List Char :=
        match rest with
        | '+' :: r => (1, r)
        | '-' :: r => (-1, r)
        | _ => (1, rest)
      let ed := takeDigits se.2
      if ed.1.isEmpty then none
      else some (ENum.efloat (ratTimesPow10 mant (se.1 * (digitsVal ed.1 : Int))), ed.2)
    | r2 =>
      if isFloat then some (ENum.efloat mant, r2)
      else some (ENum.eint (digitsVal ip.1 : Int), r2)

/-- Tokens of the restricted arithmetic expressions. -/
inductive Tok where
  | tnum (v : ENum) : Tok
  | tplus : Tok
  | tminus : Tok
  | tstar : Tok
  | tslash : Tok
  | tlparen : Tok
  | trparen : Tok
deriving DecidableEq

/-- Modelled from the spec: tokenization of the restricted arithmetic
grammar. Operators and parentheses are single tokens, digit or point
starts a numeric literal, and any other character (such as a lone e,
a name in Python) is an error. -/
def lexTokens : Nat → List Char → Option (List Tok)
  | 0, _ => none
  | _, [] => some []
  | fuel + 1, c :: cs =>
    if c = '+' then (lexTokens fuel cs).map (fun ts => Tok.tplus :: ts)
    else if c = '-' then (lexTokens fuel cs).map (fun ts => Tok.tminus :: ts)
    else if c = '*' then (lexTokens fuel cs).map (fun ts => Tok.tstar :: ts)
    else if c = '/' then (lexTokens fuel cs).map (fun ts => Tok.tslash :: ts)
    else if c = '(' then (lexTokens fuel cs).map (fun ts => Tok.tlparen :: ts)
    else if c = ')' then (lexTokens fuel cs).map (fun ts => Tok.trparen :: ts)
    else if c.isDigit || c = '.' then
      match lexNumber (c :: cs) with
      | some (v, rest) => (lexTokens fuel rest).map (fun ts => Tok.tnum v :: ts)
      | none => none
    else none

mutual

/-- Modelled from the spec: expression level of the arithmetic grammar,
a term followed by additive operators. -/
def parseExpr : Nat → List Tok → Option (ENum × List Tok)
  | 0, _ => none
  | f + 1, ts =>
    match parseTerm f ts with
    | none => none
    | some (v, rest) => parseExprLoop f v rest

/-- The additive-operator loop of the expression level. -/
def parseExprLoop : Nat → ENum → List Tok → Option (ENum × List Tok)
  | 0, _, _ => none
  | f + 1, acc, Tok.tplus :: ts =>
    match parseTerm f ts with
    | none => none
    | some (v, rest) => parseExprLoop f (ENum.add acc v) rest
  | f + 1, acc, Tok.tminus :: ts =>
    match parseTerm f ts with
    | none => none
    | some (v, rest) => parseExprLoop f (ENum.sub acc v) rest
  | _ + 1, acc, ts => some (acc, ts)

/-- Term level: a factor followed by multiplicative operators. -/
def parseTerm : Nat → List Tok → Option (ENum × List Tok)
  | 0, _ => none
  | f + 1, ts =>
    match parseFactor f ts with
    | none => none
    | some (v, rest) => parseTermLoop f v rest

/-- The multiplicative-operator loop of the term level; division can
fail (division by zero). -/
def parseTermLoop : Nat → ENum → List Tok → Option (ENum × List Tok)
  | 0, _, _ => none
  | f + 1, acc, Tok.tstar :: ts =>
    match parseFactor f ts with
    | none => none
    | some (v, rest) => parseTermLoop f (ENum.mul acc v) rest
  | f + 1, acc, Tok.tslash :: ts =>
    match parseFactor f ts with
    | none => none
    | some (v, rest) =>
      match ENum.div acc v with
      | none => none
      | some q => parseTermLoop f q rest
  | _ + 1, acc, ts => some (acc, ts)

/-- Factor level: unary signs applied to an atom. -/
def parseFactor : Nat → List Tok → Option (ENum × List Tok)
  | 0, _ => none
  | f + 1, Tok.tminus :: ts => (parseFactor f ts).map (fun p => (ENum.neg p.1, p.2))
  | f + 1, Tok.tplus :: ts => parseFactor f ts
  | f + 1, ts => parseAtom f ts

/-- Atom level: a numeric literal or a parenthesized expression. -/
def parseAtom : Nat → List Tok → Option (ENum × List Tok)
  | 0, _ => none
  | _ + 1, Tok.tnum v :: ts => some (v, ts)
  | f + 1, Tok.tlparen :: ts =>
    match parseExpr f ts with
    | some (v, Tok.trparen :: rest) => some (v, rest)
    | _ => none
  | _, _ => none

end

/-- Modelled from the spec: evaluation of the text as a restricted
arithmetic expression (the role the Python eval builtin plays in
NumericTypeItem.from_string after the regular-expression gate), with
every lexing, parse or arithmetic error collapsing to none. Trailing
newlines are insignificant to eval and are dropped; the inputs the
regex gate lets through carry at most one. -/
def pyEvalArith (s : String) : Option ENum :=
  let cs0 := s.toList
  let cs := (cs0.reverse.dropWhile (fun c => c = '\x0a')).reverse
  match lexTokens (cs.length + 1) cs with
  | none => none
  | some ts =>
    match parseExpr (4 * (ts.length + 1)) ts with
    | some (v, []) => some v
    | _ => none

/-- Truncation toward zero, the behavior of the Python int constructor
on a float. -/
def pyIntTrunc (q : ℚ) : Int := Int.tdiv q.num (q.den : Int)

/-- self.type(...) on the evaluation result: the int constructor
truncates a float, the float constructor widens an int. -/
def coerceNum : NumType → ENum → PyVal
  | .int, .eint n => .VInt n
  | .int, .efloat q => .VInt (pyIntTrunc q)
  | .float, .eint n => .VFloat (n : ℚ)
  | .float, .efloat q => .VFloat q

/-- NumericTypeItem.from_string: the regular-expression gate, then
evaluation of the expression coerced to the target type; a failed match
or a caught evaluation error yields None. -/
def NumericTypeItem.from_string (it : NumericTypeItem) (s : String) : Option PyVal :=
  if numericRegexMatch s then
    match pyEvalArith s with
    | some v => some (coerceNum it.type v)
    | none => none
  else none

lemma NumericTypeItem.check_value_iff (it : NumericTypeItem) (v : PyVal) :
    it.check_value v = true ↔
      (pyIsinstanceNum it.type v = true
       ∧ (it.nonzero.getD false = true → pyNumVal v ≠ 0)
       ∧ (∀ m, it.min = some m → m ≤ pyNumVal v)
       ∧ (∀ m, it.max = some m → pyNumVal v ≤ m)) := by
  obtain ⟨ty, mn, mx, nz⟩ := it
  simp only [NumericTypeItem.check_value]
  cases hty : pyIsinstanceNum ty v <;>
    cases nz <;> cases mn <;> cases mx <;>
      split_ifs <;> simp_all


/-- C2 (amended): check_value is true iff the value passes the code's
isinstance gate for the target numeric type (for int this admits
booleans, since bool subclasses int, and rejects long objects; for
float only float objects) together with the nonzero, min and max
checks; and with nonzero set, a zero value is rejected whatever the
range bounds say. -/
theorem guidata_C2_numeric_check (it : NumericTypeItem) (v : PyVal) :
    (NumericTypeItem.check_value it v = true ↔
      (pyIsinstanceNum it.type v = true
       ∧ (it.nonzero.getD false = true → pyNumVal v ≠ 0)
       ∧ (∀ m, it.min = some m → m ≤ pyNumVal v)
       ∧ (∀ m, it.max = some m → pyNumVal v ≤ m)))
    ∧ (pyIsinstanceNum NumType.int v = true ↔
        ((∃ n, v = PyVal.VInt n) ∨ (∃ b, v = PyVal.VBool b)))
    ∧ (pyIsinstanceNum NumType.float v = true ↔ (∃ q, v = PyVal.VFloat q))
    ∧ (it.nonzero = some true →
        NumericTypeItem.check_value it (PyVal.VInt 0) = false
        ∧ NumericTypeItem.check_value it (PyVal.VFloat 0) = false
        ∧ NumericTypeItem.check_value it (PyVal.VBool false) = false) := by
  refine ⟨NumericTypeItem.check_value_iff it v, ?_, ?_, ?_⟩
  · cases v <;> simp [pyIsinstanceNum]
  · cases v <;> simp [pyIsinstanceNum]
  · intro h
    obtain ⟨ty, mn, mx, nz⟩ := it
    simp only at h
    subst h
    cases ty <;> simp [NumericTypeItem.check_value, pyIsinstanceNum, pyNumVal]

/-- Witness for C2 at a concrete descriptor whose range admits zero. -/
theorem guidata_C2_witness :
    NumericTypeItem.check_value ⟨NumType.int, some (-5), some 5, some true⟩
      (PyVal.VInt 0) = false
    ∧ NumericTypeItem.check_value ⟨NumType.int, some (-5), some 5, some true⟩
      (PyVal.VFloat 0) = false
    ∧ NumericTypeItem.check_value ⟨NumType.int, some (-5), some 5, some true⟩
      (PyVal.VBool false) = false :=
  (guidata_C2_numeric_check ⟨NumType.int, some (-5), some 5, some true⟩
    (PyVal.VInt 7)).2.2.2 rfl

/-- Counterexample to C2 as stated: an unconstrained integer descriptor
accepts the boolean True, which does not have exactly the numeric type
int (bool merely subclasses it). -/
theorem guidata_C2_counterexample :
    NumericTypeItem.check_value ⟨NumType.int, none, none, none⟩
      (PyVal.VBool true) = true
    ∧ hasExactNumericType NumType.int (PyVal.VBool true) = false := by
  constructor
  · rfl
  · rfl

/-- C1: evaluation of the embedded check at the failing input. With
even set to true, check_value accepts 2 to the 53rd plus 1, an odd
integer: value/2. rounds the value to the even double 2 to the 53rd,
so the parity test value//2 == value/2. passes. This contradicts both
the claim and the IntItem docstring, which require odd values to be
rejected when even is true. -/
theorem guidata_C1_code_divergence :
    IntItem.check_value ⟨none, none, none, some true⟩
      (PyVal.VInt 9007199254740993) = true
    ∧ (9007199254740993 : Int) % 2 = 1 := by
  have h1 : Int.fdiv 9007199254740993 2 = 4503599627370496 := by decide
  have h2 : roundToDouble 9007199254740993 = 9007199254740992 := by decide
  have hpe : pyIntIsEven 9007199254740993 = true := by
    unfold pyIntIsEven
    rw [h1, h2, decide_eq_true_iff]
    norm_num
  constructor
  · simp [IntItem.check_value, NumericTypeItem.check_value, IntItem.toNumeric,
      pyIsinstanceNum, pyNumVal, hpe]
  · decide

/-- C9: a plain text descriptor rejects a value exactly when notempty is
set and the value is falsy; with notempty unset every value of every
type is accepted (no type check is performed). -/
theorem guidata_C9_string_check (it : StringItem) (v : PyVal) :
    (StringItem.check_value it v = false ↔
      (it.notempty.getD false = true ∧ pyFalsy v = true))
    ∧ (it.notempty.getD false = false → StringItem.check_value it v = true) := by
  unfold StringItem.check_value
  constructor
  · by_cases h1 : it.notempty.getD false = true <;>
      by_cases h2 : pyFalsy v = true <;> simp_all
  · intro h
    simp [h]

/-- Witness for C9: with notempty unset, a non-string value passes. -/
theorem guidata_C9_witness :
    StringItem.check_value ⟨none⟩ (PyVal.VInt 5) = true :=
  (guidata_C9_string_check ⟨none⟩ (PyVal.VInt 5)).2 rfl

lemma foldl_and_eq (f : String → Bool) :
    ∀ (l : List String) (b : Bool),
      l.foldl (fun acc p => acc && f p) b = (b && l.all f) := by
  intro l
  induction l with
  | nil => intro b; simp
  | cons p t ih => intro b; simp [List.foldl, ih, Bool.and_assoc]

/-- C5: FilesOpenItem.check_value is the conjunction, over the whole
path sequence, of existence and regular-file tests; the empty sequence
passes vacuously, and a sequence holding one nonexistent path fails. -/
theorem guidata_C5_filesopen_check :
    (∀ (fs : FileSystem) (value : List String),
      FilesOpenItem.check_value fs value = true ↔
        ∀ p ∈ value, fs.path_exists p = true ∧ fs.isfile p = true)
    ∧ (∀ fs : FileSystem, FilesOpenItem.check_value fs [] = true)
    ∧ (∀ fs : FileSystem, fs.path_exists "/nonexistent" = false →
        FilesOpenItem.check_value fs ["/nonexistent"] = false) := by
  refine ⟨?_, ?_, ?_⟩
  · intro fs value
    unfold FilesOpenItem.check_value
    rw [foldl_and_eq (fun p => fs.path_exists p && fs.isfile p) value true]
    simp [List.all_eq_true]
  · intro fs
    rfl
  · intro fs h
    simp [FilesOpenItem.check_value, h]

/-- Witness for C5 on a filesystem oracle with no files at all. -/
theorem guidata_C5_witness :
    FilesOpenItem.check_value ⟨fun _ => false, fun _ => false⟩ ["/nonexistent"] = false :=
  guidata_C5_filesopen_check.2.2 ⟨fun _ => false, fun _ => false⟩ rfl

/-- C8: ButtonItem.serialize writes nothing and ButtonItem.deserialize
reads nothing and leaves the stored value unchanged. -/
theorem guidata_C8_button_serialize_noop :
    (∀ w : ItemWriter, ButtonItem.serialize w = w)
    ∧ (∀ (v : PyVal) (r : ItemReader), ButtonItem.deserialize v r = (v, r)) :=
  ⟨fun _ => rfl, fun _ _ => rfl⟩

/-- C10: horizontal and vertical set only the display shape, to (n, -1)
and (-1, n) respectively, and leave the data-group state (choices and
default) and the other descriptor attributes unchanged. -/
theorem guidata_C10_layout_helpers (it : MultipleChoiceItem) (n : Int) :
    ((it.horizontal n).shape = (n, -1)
     ∧ (it.horizontal n).choices = it.choices
     ∧ (it.horizontal n).default = it.default
     ∧ (it.horizontal n).label = it.label
     ∧ (it.horizontal n).help = it.help)
    ∧ ((it.vertical n).shape = (-1, n)
     ∧ (it.vertical n).choices = it.choices
     ∧ (it.vertical n).default = it.default
     ∧ (it.vertical n).label = it.label
     ∧ (it.vertical n).help = it.help) :=
  ⟨⟨rfl, rfl, rfl, rfl, rfl⟩, ⟨rfl, rfl, rfl, rfl, rfl⟩⟩

/-- C6: with the FirstChoice sentinel, a static choice source resolves
the default to the key of the first normalized entry, and a dynamic
(callable) choice source resolves it to None. -/
theorem guidata_C6_choice_default :
    (∀ l : List ChoiceSpec, l ≠ [] →
      ∃ e rest, ChoiceItem.normalizeChoices l = e :: rest
        ∧ ChoiceItem.resolveDefault (Choices.static l) ChoiceDefaultArg.firstChoice
            = some (some e.1))
    ∧ ChoiceItem.resolveDefault Choices.dynamic ChoiceDefaultArg.firstChoice
        = some none := by
  constructor
  · intro l hl
    cases l with
    | nil => exact absurd rfl hl
    | cons c cs =>
      refine ⟨ChoiceItem.normalize_choice 0 c, ChoiceItem.normalizeFrom 1 cs, rfl, ?_⟩
      simp [ChoiceItem.resolveDefault, ChoiceItem.normalizeChoices, ChoiceItem.normalizeFrom]
  · rfl

/-- Witness for C6 at the two-entry static list from the spec. -/
theorem guidata_C6_witness :
    ∃ e rest,
      ChoiceItem.normalizeChoices
          [ChoiceSpec.pair (PKey.kstr "a") "Alpha", ChoiceSpec.pair (PKey.kstr "b") "Beta"]
        = e :: rest
      ∧ ChoiceItem.resolveDefault
          (Choices.static
            [ChoiceSpec.pair (PKey.kstr "a") "Alpha", ChoiceSpec.pair (PKey.kstr "b") "Beta"])
          ChoiceDefaultArg.firstChoice = some (some e.1) :=
  guidata_C6_choice_default.1
    [ChoiceSpec.pair (PKey.kstr "a") "Alpha", ChoiceSpec.pair (PKey.kstr "b") "Beta"]
    (List.cons_ne_nil _ _)

lemma normalizeFrom_length (l : List ChoiceSpec) :
    ∀ k, (ChoiceItem.normalizeFrom k l).length = l.length := by
  induction l with
  | nil => intro k; rfl
  | cons c cs ih => intro k; simp [ChoiceItem.normalizeFrom, ih]

lemma normalizeFrom_getElem (l : List ChoiceSpec) :
    ∀ (k i : Nat), (ChoiceItem.normalizeFrom k l)[i]? =
      (l[i]?).map (fun c => ChoiceItem.normalize_choice (k + i) c) := by
  induction l with
  | nil => intro k i; simp [ChoiceItem.normalizeFrom]
  | cons c cs ih =>
    intro k i
    cases i with
    | zero => simp [ChoiceItem.normalizeFrom]
    | succ j =>
      have harith : k + 1 + j = k + (j + 1) := by omega
      simp [ChoiceItem.normalizeFrom, ih (k + 1) j, harith]

/-- C7: normalization of a static choice sequence is entrywise with a
positional fallback: a (key, label) entry keeps its key, a bare label
gets its zero-based index as key, and the image slot is always None; in
particular the plain label list normalizes as stated in the spec. -/
theorem guidata_C7_choice_normalization :
    (∀ (l : List ChoiceSpec) (i : Nat),
      (ChoiceItem.normalizeChoices l)[i]? =
        (l[i]?).map (fun c => ChoiceItem.normalize_choice i c))
    ∧ (∀ l : List ChoiceSpec, (ChoiceItem.normalizeChoices l).length = l.length)
    ∧ (∀ (k : PKey) (s : String) (i : Nat),
        ChoiceItem.normalize_choice i (ChoiceSpec.pair k s) = (k, s, none))
    ∧ (∀ (s : String) (i : Nat),
        ChoiceItem.normalize_choice i (ChoiceSpec.lab s) = (PKey.kint (i : Int), s, none))
    ∧ ChoiceItem.normalizeChoices [ChoiceSpec.lab "X", ChoiceSpec.lab "Y"] =
        [(PKey.kint 0, "X", none), (PKey.kint 1, "Y", none)] := by
  refine ⟨?_, ?_, ?_, ?_, ?_⟩
  · intro l i
    simpa using normalizeFrom_getElem l 0 i
  · intro l
    exact normalizeFrom_length l 0
  · intro k s i
    rfl
  · intro s i
    rfl
  · rfl

lemma decodeFlags_of_map (value : List PKey) :
    ∀ (cs : List ChoiceEntry) (choices : List ChoiceEntry) (idx : Nat),
      (∀ j : Nat, cs[j]? = choices[idx + j]?) →
      MultipleChoiceItem.decodeFlags choices idx
          (cs.map (fun c => decide (c.1 ∈ value)))
        = some ((cs.filter (fun c => decide (c.1 ∈ value))).map (fun c => c.1)) := by
  intro cs
  induction cs with
  | nil =>
    intro choices idx h
    simp [MultipleChoiceItem.decodeFlags]
  | cons c cs ih =>
    intro choices idx h
    have h0 : choices[idx]? = some c := by
      have := h 0
      simpa using this.symm
    have hrest : ∀ j : Nat, cs[j]? = choices[idx + 1 + j]? := by
      intro j
      have := h (j + 1)
      have harith : idx + (j + 1) = idx + 1 + j := by omega
      simpa [harith] using this
    by_cases hc : c.1 ∈ value
    · simp [MultipleChoiceItem.decodeFlags, hc, h0, ih choices (idx + 1) hrest,
        List.filter]
    · simp [MultipleChoiceItem.decodeFlags, hc, ih choices (idx + 1) hrest,
        List.filter]

lemma filter_map_mem_iff (choices : List ChoiceEntry) (value : List PKey)
    (hsub : ∀ k ∈ value, k ∈ choices.map (fun c => c.1)) (k : PKey) :
    k ∈ ((choices.filter (fun c => decide (c.1 ∈ value))).map (fun c => c.1)) ↔
      k ∈ value := by
  simp only [List.mem_map, List.mem_filter, decide_eq_true_eq]
  constructor
  · rintro ⟨c, ⟨_, hv⟩, rfl⟩
    exact hv
  · intro hk
    obtain ⟨c, hc, hck⟩ := List.mem_map.mp (hsub k hk)
    exact ⟨c, ⟨hc, hck ▸ hk⟩, hck⟩

lemma decodeFlags_replicate (choices : List ChoiceEntry) :
    ∀ (n idx : Nat),
      MultipleChoiceItem.decodeFlags choices idx (List.replicate n false) = some [] := by
  intro n
  induction n with
  | zero => intro idx; simp [MultipleChoiceItem.decodeFlags]
  | succ m ih =>
    intro idx
    simp [List.replicate, MultipleChoiceItem.decodeFlags, ih]

/-- C4: serialize writes exactly one boolean sequence with one flag per
choice entry, in order, true iff that key is selected; deserializing
what serialize wrote on the same static choice list rebuilds exactly
the selected key set (when the selection draws its keys from the
list), and the empty selection serializes to an all-false sequence and
deserializes back to the empty selection. -/
theorem guidata_C4_multichoice_roundtrip (it : MultipleChoiceItem)
    (value : List PKey) (w : ItemWriter) :
    (MultipleChoiceItem.serialize it value w
        = w ++ [WriteTok.wsequence (it.serializeSeq value)])
    ∧ ((it.serializeSeq value).length = it.choices.length)
    ∧ (∀ i : Nat, (it.serializeSeq value)[i]? =
        (it.choices[i]?).map (fun c => decide (c.1 ∈ value)))
    ∧ ((∀ k ∈ value, k ∈ it.choices.map (fun c => c.1)) →
        ∃ v' r, MultipleChoiceItem.deserialize it
            (MultipleChoiceItem.serialize it value ([] : ItemWriter)) = some (v', r)
          ∧ (∀ k, k ∈ v' ↔ k ∈ value))
    ∧ (it.serializeSeq [] = List.replicate it.choices.length false)
    ∧ (MultipleChoiceItem.decodeFlags it.choices 0
        (List.replicate it.choices.length false) = some []) := by
  refine ⟨rfl, ?_, ?_, ?_, ?_, ?_⟩
  · simp [MultipleChoiceItem.serializeSeq]
  · intro i
    simp [MultipleChoiceItem.serializeSeq, List.getElem?_map]
  · intro hsub
    have hidx : ∀ j : Nat, it.choices[j]? = it.choices[0 + j]? := by
      intro j
      simp
    have hdec := decodeFlags_of_map value it.choices it.choices 0 hidx
    refine ⟨(it.choices.filter (fun c => decide (c.1 ∈ value))).map (fun c => c.1),
      [], ?_, ?_⟩
    · simp [MultipleChoiceItem.deserialize, MultipleChoiceItem.serialize,
        ItemWriter.write_sequence, ItemReader.read_sequence,
        MultipleChoiceItem.serializeSeq, hdec]
    · intro k
      exact filter_map_mem_iff it.choices value hsub k
  · simp [MultipleChoiceItem.serializeSeq, List.map_const]
  · exact decodeFlags_replicate it.choices it.choices.length 0

/-- Witness for C4: a five-entry static list with selection keys 1 and
3 round-trips to exactly that selection. -/
theorem guidata_C4_witness :
    ∃ v' r, MultipleChoiceItem.deserialize
        ⟨"mc", "", [(PKey.kint 1, "one", none), (PKey.kint 2, "two", none),
          (PKey.kint 3, "three", none), (PKey.kint 4, "four", none),
          (PKey.kint 5, "five", none)], [], (1, -1)⟩
        (MultipleChoiceItem.serialize
          ⟨"mc", "", [(PKey.kint 1, "one", none), (PKey.kint 2, "two", none),
            (PKey.kint 3, "three", none), (PKey.kint 4, "four", none),
            (PKey.kint 5, "five", none)], [], (1, -1)⟩
          [PKey.kint 1, PKey.kint 3] ([] : ItemWriter)) = some (v', r)
      ∧ (∀ k, k ∈ v' ↔ k ∈ [PKey.kint 1, PKey.kint 3]) :=
  (guidata_C4_multichoice_roundtrip
    ⟨"mc", "", [(PKey.kint 1, "one", none), (PKey.kint 2, "two", none),
      (PKey.kint 3, "three", none), (PKey.kint 4, "four", none),
      (PKey.kint 5, "five", none)], [], (1, -1)⟩
    [PKey.kint 1, PKey.kint 3] ([] : ItemWriter)).2.2.2.1 (by decide)

/-- C3 (amended): from_string yields a value only when the text passes
the regular-expression gate, which requires at least one character of
the restricted class and additionally accepts a single trailing
newline through the dollar anchor, and the arithmetic evaluation
succeeds; any non-matching input or evaluation error yields None. On
an integer descriptor the texts 2+2 and 2+2 followed by a newline
both parse to the value 4, and both abc and the empty string yield
None. -/
theorem guidata_C3_from_string :
    (∀ (it : NumericTypeItem) (s : String),
      (NumericTypeItem.from_string it s).isSome = true →
        numericRegexMatch s = true ∧ (pyEvalArith s).isSome = true)
    ∧ (∀ s : String,
        numericRegexMatch s = true ↔
          (stripTrailingNewline s.toList ≠ []
           ∧ ∀ c ∈ stripTrailingNewline s.toList, numericCharClass c = true))
    ∧ (∀ it : NumericTypeItem, it.type = NumType.int →
        NumericTypeItem.from_string it "2+2" = some (PyVal.VInt 4))
    ∧ (∀ it : NumericTypeItem, it.type = NumType.int →
        NumericTypeItem.from_string it "2+2\x0a" = some (PyVal.VInt 4))
    ∧ (∀ it : NumericTypeItem, NumericTypeItem.from_string it "abc" = none)
    ∧ (∀ it : NumericTypeItem, NumericTypeItem.from_string it "" = none) := by
  refine ⟨?_, ?_, ?_, ?_, ?_, ?_⟩
  · intro it s h
    unfold NumericTypeItem.from_string at h
    by_cases hr : numericRegexMatch s = true
    · refine ⟨hr, ?_⟩
      rw [if_pos hr] at h
      cases he : pyEvalArith s with
      | none => rw [he] at h; simp at h
      | some v => simp
    · rw [if_neg hr] at h
      simp at h
  · intro s
    simp [numericRegexMatch, List.all_eq_true, List.isEmpty_iff]
  · intro it hty
    have hr : numericRegexMatch "2+2" = true := by decide
    have he : pyEvalArith "2+2" = some (ENum.eint 4) := by decide
    unfold NumericTypeItem.from_string
    rw [if_pos hr, he, hty]
    rfl
  · intro it hty
    have hr : numericRegexMatch "2+2\x0a" = true := by decide
    have he : pyEvalArith "2+2\x0a" = some (ENum.eint 4) := by decide
    unfold NumericTypeItem.from_string
    rw [if_pos hr, he, hty]
    rfl
  · intro it
    have hr : numericRegexMatch "abc" = false := by decide
    simp [NumericTypeItem.from_string, hr]
  · intro it
    have hr : numericRegexMatch "" = false := by decide
    simp [NumericTypeItem.from_string, hr]

/-- Witness for C3 on a concrete integer descriptor and the text 2+2. -/
theorem guidata_C3_witness :
    (numericRegexMatch "2+2" = true ∧ (pyEvalArith "2+2").isSome = true)
    ∧ NumericTypeItem.from_string ⟨NumType.int, none, none, none⟩ "2+2"
        = some (PyVal.VInt 4) :=
  ⟨guidata_C3_from_string.1 ⟨NumType.int, none, none, none⟩ "2+2" (by decide),
   guidata_C3_from_string.2.2.1 ⟨NumType.int, none, none, none⟩ rfl⟩

/-- Counterexample to C3 as stated: the text 2+2 followed by a newline
is outside the claimed character grammar, yet from_string returns 4 on
an integer descriptor, because the dollar anchor of the source regular
expression matches before a trailing newline. -/
theorem guidata_C3_counterexample :
    NumericTypeItem.from_string ⟨NumType.int, none, none, none⟩ "2+2\x0a"
      = some (PyVal.VInt 4)
    ∧ "2+2\x0a".toList.all numericCharClass = false := by
  constructor
  · rfl
  · rfl
